import Mathlib

/-!
Shallow embedding of the slurk wordle bot (src/wordle/lib/wordle_bot.py and
src/wordle/lib/image_data.py).

The bot keeps, per room id, a collection of global dictionaries:
images_per_room (the remaining (word, image) round items), players_per_room
(the two-player roster), guesses_per_room (the in-flight guess submissions of
the current round), guesses_history, points_per_room, timers_per_room
(a RoomTimers record holding the round timer and per-player departure timers),
plus last_message_from and the waiting-room token set.

Timers (threading.Timer) are modelled by generation ids: starting a timer
allocates a fresh id from nextTid and adds it to liveTimers; Timer.cancel
removes the id; a timer callback runs only if its id is still live (the
timer-service semantics of threading.Timer), and firing removes the id.
Crucially, the handlers below only remove timer ids where the python source
actually calls .cancel().

Handlers return an Outcome: the state at return (or at the python exception,
for code paths that raise KeyError / IndexError / ValueError / AttributeError),
the ordered list of outgoing effects emitted before returning or raising, and
the raised exception if any.  Outgoing messages are abstracted to tagged
constructors carrying the data interpolated into the python f-strings.
-/

/-- Association-list lookup, mirroring python `d[k]` / `d.get(k)`. -/
def alookup {κ α : Type} [DecidableEq κ] : List (κ × α) → κ → Option α
  | [], _ => none
  | (k, v) :: t, k0 => if k = k0 then some v else alookup t k0

/-- Association-list insert/replace, mirroring python `d[k] = v`
(order-preserving replace when the key exists, append otherwise). -/
def ainsert {κ α : Type} [DecidableEq κ] : List (κ × α) → κ → α → List (κ × α)
  | [], k0, v0 => [(k0, v0)]
  | (k, v) :: t, k0, v0 =>
      if k = k0 then (k0, v0) :: t else (k, v) :: ainsert t k0 v0

/-- Association-list removal, mirroring python `d.pop(k)`: after the pop the
key is absent from the dict. -/
def aerase {κ α : Type} [DecidableEq κ] : List (κ × α) → κ → List (κ × α)
  | [], _ => []
  | (k, v) :: t, k0 => if k = k0 then aerase t k0 else (k, v) :: aerase t k0

/-- Model of python `s.strip() == ""`: every character is whitespace. -/
def isBlank (s : String) : Bool := s.toList.all Char.isWhitespace

/-- Size of the value set, mirroring python `len(set(values))`. -/
def numDistinct : List String → Nat
  | [] => 0
  | x :: t => if x ∈ t then numDistinct t else numDistinct t + 1

/-- Player record: `{**usr, "msg_n": 0, "status": "joined"}` entries of
players_per_room in wordle_bot.py. -/
structure Player where
  id : Nat
  name : String
  msg_n : Nat
  pstatus : String
deriving DecidableEq

/-- Round item: the (word, image url) pairs stored per room.  The item at the
head of the list is the current round (wordle_bot.py indexes `[0]` and pops
from the front). -/
abbrev RoundItem := String × String

/-- RoomTimers (wordle_bot.py lines 24-37): `left_room` maps a user id to that
player's departure timer, `round_timer` is the round-timeout timer. -/
structure RoomTimers where
  left_room : List (Nat × Nat)
  round_timer : Option Nat
deriving DecidableEq

/-- Tags for the text messages the bot emits; payloads carry the data the
python source interpolates into the corresponding f-strings. -/
inductive Msg where
  | joinedGame (name : String)
  | leftGame (name : String)
  | needGuess
  | invalidWord
  | wrongLength (n : Nat)
  | alreadyGuessed (oldGuess : String)
  | waitPartner
  | partnerThinks
  | differentWords
  | roundResult (result : String) (points : Nat) (total : Nat)
  | timeUp
  | gameOver
  | shareSocial (partner : String) (points : Nat) (n : Nat)
  | nextImage (remainingItems : Nat)
  | notUnderstood
  | roomClosing
deriving DecidableEq

/-- Structured `message_command` payloads the bot emits. -/
inductive BotCommand where
  | wordleInit
  | wordleGuess (guess : String) (correct : String)
deriving DecidableEq

/-- Outgoing effects: socketio emits and REST calls of wordle_bot.py. -/
inductive Effect where
  | textMsg (room : Nat) (receiver : Option Nat) (msg : Msg)
  | msgCommand (room : Nat) (receiver : Option Nat) (cmd : BotCommand)
  | patchImage (room : Nat) (receiver : Nat) (image : String)
  | patchTitle (room : Nat)
  | patchReadOnly (room : Nat)
  | patchPlaceholder (room : Nat)
  | removeUser (user : Nat) (room : Nat)
deriving DecidableEq

/-- Python exceptions the embedded code paths can raise. -/
inductive PyErr where
  | keyErr
  | indexErr
  | valueErr
  | attributeErr
deriving DecidableEq

/-- The global state of the bot: the per-room dictionaries of
WordleBot.__init__ plus the timer-service model (liveTimers, nextTid). -/
structure BotState where
  task_id : Option Nat
  waiting_room : Nat
  bot_user : Nat
  images_n : Nat
  wordlist : List String
  received_waiting_token : List Nat
  images_per_room : List (Nat × List RoundItem)
  players_per_room : List (Nat × List Player)
  last_message_from : List (Nat × Option Nat)
  guesses_per_room : List (Nat × List (Nat × String))
  guesses_history : List (Nat × List String)
  points_per_room : List (Nat × Nat)
  timers_per_room : List (Nat × RoomTimers)
  liveTimers : List Nat
  nextTid : Nat
deriving DecidableEq

/-- Result of running a handler: resulting state, emitted effects (in order),
and the python exception raised, if any. -/
structure Outcome where
  state : BotState
  effects : List Effect
  err : Option PyErr
deriving DecidableEq

/-- Normal return. -/
def ok (s : BotState) (es : List Effect) : Outcome := ⟨s, es, none⟩

/-- Abnormal return: the handler raised a python exception after emitting
`es` and leaving the state at `s`. -/
def fail (s : BotState) (es : List Effect) (e : PyErr) : Outcome := ⟨s, es, some e⟩

/-- Sequencing: run `f` on the state unless an exception was already raised;
effects accumulate in order. -/
def Outcome.andThen (o : Outcome) (f : BotState → Outcome) : Outcome :=
  match o.err with
  | some _ => o
  | none =>
    let r := f o.state
    ⟨r.state, o.effects ++ r.effects, r.err⟩

/-- Point table of WordleBot.__init__ line 102:
`dict(zip([6, 5, 4, 3, 2, 1], [100, 50, 25, 10, 5, 1]))`. -/
def point_system : List (Int × Nat) :=
  [(6, 100), (5, 50), (4, 25), (3, 10), (2, 5), (1, 1)]

/-- Names of the methods defined in class ImageData (image_data.py): the
properties `n` and `mode`, `get_word_image_pairs`, and the private helpers.
No method named `get_image_pairs` is defined. -/
def imageDataMethodNames : List String :=
  ["n", "mode", "get_word_image_pairs", "_image_gen", "_switch_image_order"]

/-- Whether attribute lookup on an ImageData instance for a method of the
given name succeeds. -/
def imageDataDefines (name : String) : Bool :=
  imageDataMethodNames.contains name

/-- Player reset done by next_round lines 658-660:
`usr["status"] = "ready"; usr["msg_n"] = 0`. -/
def resetPlayer (p : Player) : Player := { p with pstatus := "ready", msg_n := 0 }

/-- Insertion by ascending id, used to model python
`sorted(players, key=lambda x: x["id"])`. -/
def insertById (p : Player) : List Player → List Player
  | [] => [p]
  | q :: t => if p.id < q.id then p :: q :: t else q :: insertById p t

/-- Fixed user order of show_item line 691. -/
def sortPlayers (ps : List Player) : List Player := ps.foldr insertById []

/-- show_item (wordle_bot.py lines 687-716): patch each sorted player's
image and then the task title; nothing when no items remain. -/
def showItem (s : BotState) (room : Nat) : Outcome :=
  match alookup s.players_per_room room with
  | none => fail s [] PyErr.keyErr
  | some ps =>
    match alookup s.images_per_room room with
    | none => fail s [] PyErr.keyErr
    | some [] => ok s []
    | some ((_, image) :: _) =>
      ok s ((sortPlayers ps).map (fun u => Effect.patchImage room u.id image)
            ++ [Effect.patchTitle room])

/-- room_to_read_only (wordle_bot.py lines 797-841): patch the room read-only,
remove each player from the room, pop the room from players_per_room. -/
def roomToReadOnly (s : BotState) (room : Nat) : Outcome :=
  let es := [Effect.patchReadOnly room, Effect.patchPlaceholder room]
  match alookup s.players_per_room room with
  | none => ok s es
  | some ps =>
    ok { s with players_per_room := aerase s.players_per_room room }
       (es ++ ps.map (fun u => Effect.removeUser u.id room))

/-- close_game (wordle_bot.py lines 766-795): emit the closing notice, set the
room read-only, then pop the room from each per-room dictionary.  Note that no
timer is cancelled anywhere on this path: liveTimers is untouched. -/
def closeGame (s : BotState) (room : Nat) : Outcome :=
  (ok s [Effect.textMsg room none Msg.roomClosing]).andThen fun s1 =>
  (roomToReadOnly s1 room).andThen fun s2 =>
  ok { s2 with
        images_per_room := aerase s2.images_per_room room,
        last_message_from := aerase s2.last_message_from room,
        guesses_per_room := aerase s2.guesses_per_room room,
        guesses_history := aerase s2.guesses_history room,
        points_per_room := aerase s2.points_per_room room,
        timers_per_room := aerase s2.timers_per_room room } []

/-- next_round (wordle_bot.py lines 571-667): pop the head item, clear guess
history and submissions, then either finish the game (no items left: final
messages and close_game) or start the next round (announce, reset the players,
show the new item, and start a fresh round timer).  The source never cancels
the previous round timer: line 664 overwrites the reference while the old
timer stays scheduled. -/
def nextRound (s : BotState) (room : Nat) : Outcome :=
  match alookup s.images_per_room room with
  | none => fail s [] PyErr.keyErr
  | some [] => fail s [] PyErr.indexErr
  | some (_ :: rest) =>
    let s1 : BotState :=
      { s with images_per_room := ainsert s.images_per_room room rest,
               guesses_history := ainsert s.guesses_history room [],
               guesses_per_room := ainsert s.guesses_per_room room [] }
    match alookup s1.players_per_room room with
    | none => fail s1 [] PyErr.keyErr
    | some [curr, other] =>
      if rest = [] then
        match alookup s1.points_per_room room with
        | none => fail s1 [Effect.textMsg room none Msg.gameOver] PyErr.keyErr
        | some pts =>
          (ok s1 [Effect.textMsg room none Msg.gameOver,
                  Effect.textMsg room (some curr.id)
                    (Msg.shareSocial other.name pts s1.images_n),
                  Effect.textMsg room (some other.id)
                    (Msg.shareSocial curr.name pts s1.images_n)]).andThen fun s2 =>
          closeGame s2 room
      else
        (ok s1 [Effect.textMsg room none (Msg.nextImage rest.length),
                Effect.msgCommand room none BotCommand.wordleInit]).andThen fun s2 =>
        let s3 := { s2 with
          players_per_room :=
            ainsert s2.players_per_room room [resetPlayer curr, resetPlayer other] }
        (showItem s3 room).andThen fun s4 =>
        match alookup s4.timers_per_room room with
        | none => fail s4 [] PyErr.keyErr
        | some rt =>
          ok { s4 with
                timers_per_room :=
                  ainsert s4.timers_per_room room { rt with round_timer := some s4.nextTid },
                liveTimers := s4.nextTid :: s4.liveTimers,
                nextTid := s4.nextTid + 1 } []
    | some _ => fail s1 [] PyErr.valueErr

/-- time_out_round (wordle_bot.py lines 669-685): announce the timeout and
advance the round.  The body performs no check whatsoever that the firing
timer is still the session's current round timer. -/
def timeOutRound (s : BotState) (room : Nat) : Outcome :=
  (ok s [Effect.textMsg room none Msg.timeUp]).andThen fun s1 => nextRound s1 room

/-- Timer-service semantics for a round timer: a threading.Timer runs its
callback only if it was neither cancelled nor already fired.  The callback is
time_out_round. -/
def fireRoundTimer (s : BotState) (t room : Nat) : Outcome :=
  if s.liveTimers.contains t then
    timeOutRound { s with liveTimers := s.liveTimers.erase t } room
  else ok s []

/-- Timer-service semantics for a departure timer: the callback is
close_game (wordle_bot.py line 328). -/
def fireLeftRoomTimer (s : BotState) (t room : Nat) : Outcome :=
  if s.liveTimers.contains t then
    closeGame { s with liveTimers := s.liveTimers.erase t } room
  else ok s []

/-- _command_guess (wordle_bot.py lines 402-569): identify the sender by the
two-way swap against the fixed roster, validate the guess (dictionary word,
length, no pending duplicate), record it, and on the second submission either
report a mismatch and clear, or accept the common word: clear submissions,
append to history, reveal, and if the word is correct or the allowance is 1,
award points and advance the round. -/
def commandGuess (s : BotState) (room user : Nat) (guess : String)
    (remaining : Option Int) : Outcome :=
  match alookup s.players_per_room room with
  | none => fail s [] PyErr.keyErr
  | some [u0, u1] =>
    let pr := if u0.id ≠ user then (u1, u0) else (u0, u1)
    let curr := pr.1
    let other := pr.2
    match alookup s.images_per_room room with
    | none => fail s [] PyErr.keyErr
    | some [] => fail s [] PyErr.indexErr
    | some ((word, _) :: _) =>
      match remaining with
      | none => fail s [] PyErr.keyErr
      | some rem =>
        if s.wordlist.contains guess = false then
          ok s [Effect.textMsg room (some curr.id) Msg.invalidWord]
        else if word.length ≠ guess.length then
          ok s [Effect.textMsg room (some curr.id) (Msg.wrongLength word.length)]
        else
          match alookup s.guesses_per_room room with
          | none => fail s [] PyErr.keyErr
          | some gm =>
            match alookup gm curr.id with
            | some oldGuess =>
              ok s [Effect.textMsg room (some curr.id) (Msg.alreadyGuessed oldGuess)]
            | none =>
              let gm1 := ainsert gm curr.id guess
              let s1 := { s with guesses_per_room := ainsert s.guesses_per_room room gm1 }
              if gm1.length = 1 then
                ok s1 [Effect.textMsg room (some curr.id) Msg.waitPartner,
                       Effect.textMsg room (some other.id) Msg.partnerThinks]
              else if gm1.length = 2 ∧ numDistinct (gm1.map Prod.snd) = 2 then
                ok { s1 with guesses_per_room := ainsert s1.guesses_per_room room [] }
                   [Effect.textMsg room none Msg.differentWords]
              else if gm1.length = 2 ∧ numDistinct (gm1.map Prod.snd) = 1 then
                match alookup s1.guesses_history room with
                | none => fail s1 [] PyErr.keyErr
                | some hist =>
                  let s2 := { s1 with
                    guesses_per_room := ainsert s1.guesses_per_room room [],
                    guesses_history := ainsert s1.guesses_history room (hist ++ [guess]) }
                  let gEff := Effect.msgCommand room none (BotCommand.wordleGuess guess word)
                  if word = guess ∨ rem = 1 then
                    let resPts : Option (String × Nat) :=
                      if word = guess then
                        (alookup point_system rem).map (fun p => ("WON", p))
                      else some ("LOST", 0)
                    match resPts with
                    | none => fail s2 [gEff] PyErr.keyErr
                    | some rp =>
                      match alookup s2.points_per_room room with
                      | none => fail s2 [gEff] PyErr.keyErr
                      | some pts =>
                        let s3 := { s2 with
                          points_per_room := ainsert s2.points_per_room room (pts + rp.2) }
                        (ok s3 [gEff,
                                Effect.textMsg room none
                                  (Msg.roundResult rp.1 rp.2 (pts + rp.2))]).andThen
                          fun s4 => nextRound s4 room
                  else
                    ok s2 [gEff]
              else ok s1 []
  | some _ => fail s [] PyErr.valueErr

/-- Inbound command payloads (wordle_bot.py command handler): either a
structured dict, of which only the `guess` and `remaining` keys are ever read,
or a plain (non-dict) command. -/
inductive CommandPayload where
  | structured (guess : Option String) (remaining : Option Int)
  | plain (text : String)
deriving DecidableEq

/-- command handler (wordle_bot.py lines 353-400): ignore the bot itself and
rooms without game data; dispatch dict commands carrying `guess` (blank guess
gets a warning, otherwise _command_guess); dict commands without `guess` fall
through with no action at all; non-dict commands get the generic notice. -/
def commandEvent (s : BotState) (room user : Nat) (c : CommandPayload) : Outcome :=
  if user = s.bot_user then ok s []
  else
    match alookup s.images_per_room room with
    | none => ok s []
    | some _ =>
      match c with
      | CommandPayload.structured g r =>
        match g with
        | none => ok s []
        | some gw =>
          if isBlank gw then ok s [Effect.textMsg room (some user) Msg.needGuess]
          else commandGuess s room user gw r
      | CommandPayload.plain _ =>
        ok s [Effect.textMsg room (some user) Msg.notUnderstood]

/-- Status event kinds. -/
inductive StatusType where
  | join
  | leave
deriving DecidableEq

/-- Join branch of the status handler (wordle_bot.py lines 256-309): notify
the partner, re-send wordle_init to the joining player, show the item, replay
the guess history to the joining player, and cancel that player's departure
timer if one is pending. -/
def statusJoin (s : BotState) (room : Nat) (curr other : Player) : Outcome :=
  (ok s [Effect.textMsg room (some other.id) (Msg.joinedGame curr.name)]).andThen fun s1 =>
  match alookup s1.images_per_room room with
  | none => fail s1 [] PyErr.keyErr
  | some [] => fail s1 [] PyErr.indexErr
  | some ((word, _) :: _) =>
    (ok s1 [Effect.msgCommand room (some curr.id) BotCommand.wordleInit]).andThen fun s2 =>
    (showItem s2 room).andThen fun s3 =>
    match alookup s3.guesses_history room with
    | none => fail s3 [] PyErr.keyErr
    | some hist =>
      (ok s3 (hist.map fun g =>
          Effect.msgCommand room (some curr.id) (BotCommand.wordleGuess g word))).andThen
        fun s4 =>
      match alookup s4.timers_per_room room with
      | none => fail s4 [] PyErr.keyErr
      | some rt =>
        match alookup rt.left_room curr.id with
        | none => ok s4 []
        | some t => ok { s4 with liveTimers := s4.liveTimers.erase t } []

/-- Leave branch of the status handler (wordle_bot.py lines 311-330): notify
the player left behind and start a departure timer for the leaver. -/
def statusLeave (s : BotState) (room : Nat) (curr other : Player) : Outcome :=
  (ok s [Effect.textMsg room (some other.id) (Msg.leftGame curr.name)]).andThen fun s1 =>
  match alookup s1.timers_per_room room with
  | none => fail s1 [] PyErr.keyErr
  | some rt =>
    ok { s1 with
          timers_per_room :=
            ainsert s1.timers_per_room room
              { rt with left_room := ainsert rt.left_room curr.id s1.nextTid },
          liveTimers := s1.nextTid :: s1.liveTimers,
          nextTid := s1.nextTid + 1 } []

/-- status handler (wordle_bot.py lines 244-330), the portion after the
task-eligibility gate of lines 233-242 (that gate is modelled by
statusHandler below, which wraps this dispatch): identify the event subject
by the two-way swap against the roster and dispatch to the join or leave
branch.  Events for the waiting room or for rooms without game data do
nothing. -/
def statusEvent (s : BotState) (room user : Nat) (ty : StatusType) : Outcome :=
  if room = s.waiting_room then ok s []
  else
    match alookup s.images_per_room room with
    | none => ok s []
    | some _ =>
      match alookup s.players_per_room room with
      | none => fail s [] PyErr.keyErr
      | some [u0, u1] =>
        let pr := if u0.id ≠ user then (u1, u0) else (u0, u1)
        match ty with
        | StatusType.join => statusJoin s room pr.1 pr.2
        | StatusType.leave => statusLeave s room pr.1 pr.2
      | some _ => fail s [] PyErr.valueErr

/-- status handler (wordle_bot.py lines 230-330), complete: lines 233-242
first fetch the event subject's task from the platform
(GET /users/{id}/task, modelled by the `userTask` map) and return early —
ignoring the event — when the payload is empty or its task id differs from
the bot's task id; only then does the roster dispatch (statusEvent) run. -/
def statusHandler (userTask : Nat → Option Nat) (s : BotState) (room user : Nat)
    (ty : StatusType) : Outcome :=
  match userTask user with
  | none => ok s []
  | some t =>
    if s.task_id = some t then statusEvent s room user ty
    else ok s []

/-- new_task_room handler (wordle_bot.py lines 127-184) for an event whose
task id matches: discard the waiting tokens of the incoming users, then call
`self.images_per_room.get_image_pairs(room_id)`.  Attribute lookup of that
name on the ImageData instance is resolved against the methods the class
defines (imageDataDefines); image_data.py defines no such method, so the
call raises AttributeError and nothing after it runs.  The resolved branch is
a no-op marker only: it is unreachable because
`imageDataDefines "get_image_pairs" = false` by computation. -/
def newTaskRoom (s : BotState) (room : Nat) (task : Option Nat)
    (users : List (Nat × String)) : Outcome :=
  match task with
  | none => ok s []
  | some t =>
    if s.task_id = some t then
      let s1 := { s with
        received_waiting_token :=
          s.received_waiting_token.filter (fun u => users.all (fun p => p.1 ≠ u)) }
      if imageDataDefines "get_image_pairs" then ok s1 []
      else fail s1 [] PyErr.attributeErr
    else ok s []

/-! ### Association-list lemmas -/

/-- Lookup after insert at the same key. -/
theorem alookup_ainsert_self {α : Type} (m : List (Nat × α)) (k : Nat) (v : α) :
    alookup (ainsert m k v) k = some v := by
  induction m with
  | nil => simp [ainsert, alookup]
  | cons kv t ih =>
    by_cases h : kv.1 = k
    · simp [ainsert, alookup, h]
    · simp [ainsert, alookup, h, ih]

/-- Lookup after insert at a different key. -/
theorem alookup_ainsert_ne {α : Type} (m : List (Nat × α)) (k0 k : Nat) (v : α)
    (h : k0 ≠ k) : alookup (ainsert m k0 v) k = alookup m k := by
  induction m with
  | nil => simp [ainsert, alookup, h]
  | cons kv t ih =>
    by_cases h1 : kv.1 = k0
    · simp [ainsert, alookup, h1, h]
    · simp [ainsert, alookup, h1, ih]

/-- Inserting twice at one key keeps only the second value. -/
theorem ainsert_ainsert {α : Type} (m : List (Nat × α)) (k : Nat) (v w : α) :
    ainsert (ainsert m k v) k w = ainsert m k w := by
  induction m with
  | nil => simp [ainsert]
  | cons kv t ih =>
    by_cases h : kv.1 = k
    · simp [ainsert, h]
    · simp [ainsert, h, ih]

/-- Lookup after erase at the erased key. -/
theorem alookup_aerase_self {α : Type} (m : List (Nat × α)) (k : Nat) :
    alookup (aerase m k) k = none := by
  induction m with
  | nil => simp [aerase, alookup]
  | cons kv t ih =>
    by_cases h : kv.1 = k
    · simp [aerase, h, ih]
    · simp [aerase, alookup, h, ih]

/-- Erase after insert removes the key entirely. -/
theorem aerase_ainsert {α : Type} (m : List (Nat × α)) (k : Nat) (v : α) :
    aerase (ainsert m k v) k = aerase m k := by
  induction m with
  | nil => simp [ainsert, aerase]
  | cons kv t ih =>
    by_cases h : kv.1 = k
    · simp [ainsert, aerase, h]
    · simp [ainsert, aerase, h, ih]

/-! ### Concrete states for counterexamples and witnesses -/

/-- Concrete player A. -/
def pAl : Player := ⟨10, "A", 0, "ready"⟩

/-- Concrete player B. -/
def pBo : Player := ⟨20, "B", 0, "ready"⟩

/-- Builds a bot state whose registry holds exactly one session, for room 1,
with roster [pAl, pBo] and the given round items, guess submissions, history,
score and timers. -/
def baseState (items : List RoundItem) (gm : List (Nat × String)) (hist : List String)
    (pts : Nat) (rt : RoomTimers) (live : List Nat) (tid : Nat) : BotState :=
  { task_id := some 7, waiting_room := 999, bot_user := 1, images_n := 3,
    wordlist := ["hello", "world", "crane", "slate"],
    received_waiting_token := [],
    images_per_room := [(1, items)],
    players_per_room := [(1, [pAl, pBo])],
    last_message_from := [(1, none)],
    guesses_per_room := [(1, gm)],
    guesses_history := [(1, hist)],
    points_per_room := [(1, pts)],
    timers_per_room := [(1, rt)],
    liveTimers := live, nextTid := tid }

/-- Bot state with no session at all. -/
def noSessionState : BotState :=
  { task_id := some 7, waiting_room := 999, bot_user := 1, images_n := 3,
    wordlist := [], received_waiting_token := [],
    images_per_room := [], players_per_room := [], last_message_from := [],
    guesses_per_room := [], guesses_history := [], points_per_room := [],
    timers_per_room := [], liveTimers := [], nextTid := 0 }

/-- Session mid-game: three items left, partner pBo already submitted the
secret word, round timer id 0 live. -/
def c1Start : BotState :=
  baseState [("hello", "i1"), ("world", "i2"), ("crane", "i3")] [(20, "hello")] []
    0 ⟨[], some 0⟩ [0] 1

/-- State reached after player pAl confirms the winning guess in c1Start. -/
def c1AfterWin : BotState := (commandGuess c1Start 1 10 "hello" (some 6)).state

/-- C1 demonstration: after the win resolves round 1 and schedules round
timer 1, the superseded round-1 timer id 0 is still live alongside it, and
firing it is not a no-op: it pops a second item, advancing past round 2. -/
theorem c1_stale_round_timer_fires :
    c1AfterWin.liveTimers = [1, 0]
    ∧ alookup c1AfterWin.images_per_room 1 = some [("world", "i2"), ("crane", "i3")]
    ∧ (fireRoundTimer c1AfterWin 0 1).err = none
    ∧ alookup (fireRoundTimer c1AfterWin 0 1).state.images_per_room 1
        = some [("crane", "i3")]
    ∧ (fireRoundTimer c1AfterWin 0 1).state ≠ c1AfterWin := by
  refine ⟨by decide, by decide, by decide, by decide, by decide⟩

/-- Session with one item left, a live round timer id 4 and a live departure
timer id 5 for player pBo. -/
def c2Start : BotState :=
  baseState [("hello", "i1")] [] [] 42 ⟨[(20, 5)], some 4⟩ [4, 5] 6

/-- C2 demonstration: close_game evicts the session from every registry map
but cancels neither the round timer nor the departure timer (both ids stay
live); the stale round timer then fires into the destroyed session and raises
KeyError; and close_game on a room with no session still emits effects. -/
theorem c2_close_game_cancels_no_timers :
    (closeGame c2Start 1).state.liveTimers = [4, 5]
    ∧ alookup (closeGame c2Start 1).state.images_per_room 1 = none
    ∧ alookup (closeGame c2Start 1).state.players_per_room 1 = none
    ∧ alookup (closeGame c2Start 1).state.guesses_per_room 1 = none
    ∧ alookup (closeGame c2Start 1).state.guesses_history 1 = none
    ∧ alookup (closeGame c2Start 1).state.points_per_room 1 = none
    ∧ alookup (closeGame c2Start 1).state.timers_per_room 1 = none
    ∧ (fireRoundTimer (closeGame c2Start 1).state 4 1).err = some PyErr.keyErr
    ∧ (closeGame noSessionState 1).effects ≠ [] := by
  refine ⟨by decide, by decide, by decide, by decide, by decide, by decide, by decide,
    by decide, by decide⟩

/-- Session used for the C3 counterexample: two items, round timer id 0 live. -/
def c3Start : BotState :=
  baseState [("hello", "i1"), ("world", "i2")] [] [] 0 ⟨[], some 0⟩ [0] 1

/-- C3 counterexample: next_round does not cancel the superseded round timer.
It starts the fresh timer id 1, yet the old id 0 is still live afterwards, so
the claimed cancel-and-reschedule is false at this input. -/
theorem c3_old_round_timer_not_cancelled :
    alookup (nextRound c3Start 1).state.timers_per_room 1
      = some ⟨[], some 1⟩
    ∧ (nextRound c3Start 1).state.liveTimers = [1, 0] := by
  exact ⟨by decide, by decide⟩

/-- C3 (amended): after a round resolution, next_round pops exactly one item
from the head of the item sequence, clears the round guess submissions and
guess history, resets both players to status "ready" with message counter 0,
and starts a freshly scheduled round timer, replacing the timer reference
without cancelling the previous timer; when no items remain after the pop, the
session is evicted from every registry map and no new round timer is started. -/
theorem c3_round_advance_amended (s : BotState) (room : Nat) (pA pB : Player)
    (it : RoundItem) (rest : List RoundItem) (rt : RoomTimers) (pts : Nat)
    (himg : alookup s.images_per_room room = some (it :: rest))
    (hpl : alookup s.players_per_room room = some [pA, pB])
    (htm : alookup s.timers_per_room room = some rt)
    (hpts : alookup s.points_per_room room = some pts) :
    (rest ≠ [] →
      (nextRound s room).state =
        { s with
            images_per_room := ainsert s.images_per_room room rest,
            guesses_history := ainsert s.guesses_history room [],
            guesses_per_room := ainsert s.guesses_per_room room [],
            players_per_room :=
              ainsert s.players_per_room room [resetPlayer pA, resetPlayer pB],
            timers_per_room :=
              ainsert s.timers_per_room room { rt with round_timer := some s.nextTid },
            liveTimers := s.nextTid :: s.liveTimers,
            nextTid := s.nextTid + 1 }
      ∧ (nextRound s room).err = none)
    ∧ (rest = [] →
      alookup (nextRound s room).state.images_per_room room = none
      ∧ alookup (nextRound s room).state.players_per_room room = none
      ∧ alookup (nextRound s room).state.guesses_per_room room = none
      ∧ alookup (nextRound s room).state.guesses_history room = none
      ∧ alookup (nextRound s room).state.points_per_room room = none
      ∧ alookup (nextRound s room).state.timers_per_room room = none
      ∧ (nextRound s room).state.liveTimers = s.liveTimers
      ∧ (nextRound s room).err = none) := by
  constructor
  · intro hrest
    obtain ⟨r0, rest2, rfl⟩ := List.exists_cons_of_ne_nil hrest
    constructor
    · simp [nextRound, himg, hpl, htm, showItem, Outcome.andThen, ok,
        alookup_ainsert_self]
    · simp [nextRound, himg, hpl, htm, showItem, Outcome.andThen, ok,
        alookup_ainsert_self]
  · rintro rfl
    refine ⟨?_, ?_, ?_, ?_, ?_, ?_, ?_, ?_⟩ <;>
      simp [nextRound, himg, hpl, hpts, closeGame, roomToReadOnly,
        Outcome.andThen, ok, alookup_ainsert_self, aerase_ainsert,
        alookup_aerase_self]

/-- C5 (amended): for a join or leave status event whose subject user id
matches neither roster player, the handler first consults the subject's
platform task: when that task is missing or differs from the bot's task id
the event is ignored (no state change, no outgoing effect); but when the
subject passes the task gate the event is not ignored — it is handled
exactly as if its subject were the second player of the roster list. -/
theorem c5_stranger_status_amended (userTask : Nat → Option Nat) (s : BotState)
    (room u : Nat) (pA pB : Player) (ty : StatusType)
    (hpl : alookup s.players_per_room room = some [pA, pB])
    (hstr : pA.id ≠ u) (hne : pA.id ≠ pB.id) :
    (userTask u = none → statusHandler userTask s room u ty = ok s [])
    ∧ (∀ t, userTask u = some t → s.task_id ≠ some t →
        statusHandler userTask s room u ty = ok s [])
    ∧ (∀ t, userTask u = some t → s.task_id = some t →
        statusHandler userTask s room u ty = statusEvent s room pB.id ty) := by
  refine ⟨fun hnone => ?_, fun t ht hmis => ?_, fun t ht hok => ?_⟩
  · simp [statusHandler, hnone]
  · simp [statusHandler, ht, hmis]
  · simp [statusHandler, ht, hok, statusEvent, hpl, hstr, hne]

/-- Session used for the C5 counterexample. -/
def c5Start : BotState :=
  baseState [("hello", "i1")] [] [] 0 ⟨[], some 0⟩ [0] 1

/-- Platform user-task map in which every user is assigned task 7, the task
id of c5Start. -/
def c5UserTask : Nat → Option Nat := fun _ => some 7

/-- C5 counterexample: a leave event for user id 99, who passes the task
gate (platform task 7 matches the bot) but is on neither side of the roster
[pAl, pBo], is not ignored: the handler notifies pAl that pBo left and
starts a departure timer keyed to pBo, changing the session state. -/
theorem c5_eligible_stranger_not_ignored :
    (statusHandler c5UserTask c5Start 1 99 StatusType.leave).effects
      = [Effect.textMsg 1 (some 10) (Msg.leftGame "B")]
    ∧ alookup
        (statusHandler c5UserTask c5Start 1 99 StatusType.leave).state.timers_per_room 1
      = some ⟨[(20, 1)], some 0⟩
    ∧ (statusHandler c5UserTask c5Start 1 99 StatusType.leave).state ≠ c5Start := by
  refine ⟨by decide, by decide, by decide⟩

/-- C7 (amended): for command events in a room with an active session, a
non-structured command is answered with the generic notice and changes no
state; a structured command without `guess` is silently ignored, with no
notice and no state change; and a structured command with a non-blank `guess`
is handed to the guess path whether or not `remaining` is present. -/
theorem c7_command_dispatch_amended (s : BotState) (room u : Nat)
    (its : List RoundItem) (txt g : String) (r : Option Int)
    (hroom : alookup s.images_per_room room = some its)
    (hbot : u ≠ s.bot_user) :
    commandEvent s room u (CommandPayload.plain txt)
      = ok s [Effect.textMsg room (some u) Msg.notUnderstood]
    ∧ commandEvent s room u (CommandPayload.structured none r) = ok s []
    ∧ (isBlank g = false →
        commandEvent s room u (CommandPayload.structured (some g) r)
          = commandGuess s room u g r) := by
  refine ⟨?_, ?_, fun hg => ?_⟩
  · simp [commandEvent, hroom, hbot]
  · simp [commandEvent, hroom, hbot]
  · simp [commandEvent, hroom, hbot, hg]

/-- Session used for the C7 counterexample. -/
def c7Start : BotState :=
  baseState [("hello", "i1")] [] [] 0 ⟨[], some 0⟩ [0] 1

/-- C7 counterexample: a structured command that carries neither `guess` nor
`remaining` produces no effects at all, in particular no generic notice to the
sender, falsifying the claimed always-answered behaviour. -/
theorem c7_structured_without_guess_silent :
    commandEvent c7Start 1 10 (CommandPayload.structured none none)
      = ok c7Start [] := by
  decide

/-- C9: for every room-created event matching the bot task id, new_task_room
invokes get_image_pairs on the ImageData supplier, which defines only
get_word_image_pairs, so the handler raises AttributeError having changed
nothing but the waiting-token set: the guess map, guess history, score and
timers of the room are never initialized. -/
theorem c9_new_task_room_attribute_error (s : BotState) (room t : Nat)
    (users : List (Nat × String)) (h : s.task_id = some t) :
    newTaskRoom s room (some t) users =
      fail { s with
              received_waiting_token :=
                s.received_waiting_token.filter (fun u => users.all (fun p => p.1 ≠ u)) }
        [] PyErr.attributeErr := by
  simp [newTaskRoom, h, imageDataDefines, imageDataMethodNames]

/-- C10: a guess command whose sender matches neither roster player is not
ignored: the two-way swap selects the second player of the roster list, so
the guess is recorded in the submission map under that player id (first
conjunct) and is subject to that player's duplicate-guess check (second
conjunct, including the wait/partner notices addressed as if the second
player had submitted). -/
theorem c10_stranger_guess_second_player (s : BotState) (room u : Nat)
    (pA pB : Player) (w img g : String) (rest : List RoundItem) (rem : Int)
    (gm : List (Nat × String))
    (hpl : alookup s.players_per_room room = some [pA, pB])
    (hstr : pA.id ≠ u)
    (himg : alookup s.images_per_room room = some ((w, img) :: rest))
    (hwl : g ∈ s.wordlist)
    (hlen : w.length = g.length)
    (hgm : alookup s.guesses_per_room room = some gm) :
    (gm = [] →
      commandGuess s room u g (some rem) =
        ⟨{ s with guesses_per_room := ainsert s.guesses_per_room room [(pB.id, g)] },
         [Effect.textMsg room (some pB.id) Msg.waitPartner,
          Effect.textMsg room (some pA.id) Msg.partnerThinks], none⟩)
    ∧ (∀ old, alookup gm pB.id = some old →
        commandGuess s room u g (some rem)
          = ok s [Effect.textMsg room (some pB.id) (Msg.alreadyGuessed old)]) := by
  constructor
  · rintro rfl
    simp [commandGuess, hpl, hstr, himg, hwl, hlen, hgm, alookup, ainsert, ok]
  · intro old hold
    simp [commandGuess, hpl, hstr, himg, hwl, hlen, hgm, hold, ok]

/-- C6: when the second recorded submission differs from the first, the
handler broadcasts the mismatch notice to the room, empties the submission
map, and leaves everything else unchanged: the full outcome equals the input
state with only guesses_per_room cleared, no item popped, no history entry,
no points and no timer change, and the single mismatch broadcast. -/
theorem c6_mismatch_clears_submissions (s : BotState) (room : Nat)
    (pA pB : Player) (w img g g2 : String) (rest : List RoundItem) (rem : Int)
    (hpl : alookup s.players_per_room room = some [pA, pB])
    (hne : pA.id ≠ pB.id)
    (himg : alookup s.images_per_room room = some ((w, img) :: rest))
    (hwl : g ∈ s.wordlist)
    (hlen : w.length = g.length)
    (hgm : alookup s.guesses_per_room room = some [(pB.id, g2)])
    (hdiff : g2 ≠ g) :
    commandGuess s room pA.id g (some rem) =
      ⟨{ s with guesses_per_room := ainsert s.guesses_per_room room [] },
       [Effect.textMsg room none Msg.differentWords], none⟩ := by
  simp [commandGuess, hpl, himg, hwl, hlen, hgm, hdiff, Ne.symm hne,
    alookup, ainsert, numDistinct, ainsert_ainsert, ok]

/-- C4: when the second recorded submission equals the first, the round
resolves exactly when the common word equals the secret word or the remaining
allowance is 1; a win adds the point-table value for the remaining allowance
to the cumulative score and a loss adds 0, with the item sequence advanced;
otherwise the session stays in the same round awaiting guesses, with
submissions cleared and the word appended to the guess history. -/
theorem c4_equal_submission_resolution (s : BotState) (room : Nat)
    (pA pB : Player) (w img g : String) (rest : List RoundItem) (rem : Int)
    (hist : List String) (pts pf : Nat) (rt : RoomTimers)
    (hpl : alookup s.players_per_room room = some [pA, pB])
    (hne : pA.id ≠ pB.id)
    (himg : alookup s.images_per_room room = some ((w, img) :: rest))
    (hwl : g ∈ s.wordlist)
    (hlen : w.length = g.length)
    (hgm : alookup s.guesses_per_room room = some [(pB.id, g)])
    (hhist : alookup s.guesses_history room = some hist)
    (hpts : alookup s.points_per_room room = some pts)
    (htm : alookup s.timers_per_room room = some rt)
    (hpf : alookup point_system rem = some pf) :
    ((w = g ∨ rem = 1) → rest ≠ [] →
      (commandGuess s room pA.id g (some rem)).err = none
      ∧ alookup (commandGuess s room pA.id g (some rem)).state.points_per_room room
          = some (pts + if w = g then pf else 0)
      ∧ alookup (commandGuess s room pA.id g (some rem)).state.images_per_room room
          = some rest
      ∧ alookup (commandGuess s room pA.id g (some rem)).state.guesses_per_room room
          = some []
      ∧ alookup (commandGuess s room pA.id g (some rem)).state.guesses_history room
          = some [])
    ∧ (¬ (w = g ∨ rem = 1) →
      commandGuess s room pA.id g (some rem) =
        ⟨{ s with
            guesses_per_room := ainsert s.guesses_per_room room [],
            guesses_history := ainsert s.guesses_history room (hist ++ [g]) },
         [Effect.msgCommand room none (BotCommand.wordleGuess g w)], none⟩) := by
  have h1 : alookup [(pB.id, g)] pA.id = none := by simp [alookup, Ne.symm hne]
  have h2 : ainsert [(pB.id, g)] pA.id g = [(pB.id, g), (pA.id, g)] := by
    simp [ainsert, Ne.symm hne]
  constructor
  · intro hres hrest
    obtain ⟨r0, rest2, rfl⟩ := List.exists_cons_of_ne_nil hrest
    by_cases hw : w = g
    · refine ⟨?_, ?_, ?_, ?_, ?_⟩ <;>
        simp [commandGuess, hpl, himg, hwl, hlen, hgm, hhist, hpts, htm, hpf,
          h1, h2, hw, numDistinct, nextRound, showItem, Outcome.andThen, ok,
          ainsert_ainsert, alookup_ainsert_self]
    · have hrem : rem = 1 := by
        rcases hres with h | h
        · exact absurd h hw
        · exact h
      refine ⟨?_, ?_, ?_, ?_, ?_⟩ <;>
        simp [commandGuess, hpl, himg, hwl, hlen, hgm, hhist, hpts, htm, hpf,
          h1, h2, hw, hrem, numDistinct, nextRound, showItem, Outcome.andThen, ok,
          ainsert_ainsert, alookup_ainsert_self]
  · intro hres
    simp [commandGuess, hpl, himg, hwl, hlen, hgm, hhist, h1, h2, hres,
      numDistinct, ainsert_ainsert, ok]

/-- Receiver of an effect: the `receiver_id` of an emit, when present. -/
def effectReceiver : Effect → Option Nat
  | Effect.textMsg _ r _ => r
  | Effect.msgCommand _ r _ => r
  | Effect.patchImage _ u _ => some u
  | Effect.patchTitle _ => none
  | Effect.patchReadOnly _ => none
  | Effect.patchPlaceholder _ => none
  | Effect.removeUser _ _ => none

/-- Subsequence of the effects addressed specifically to user `u`. -/
def toPlayer (u : Nat) : List Effect → List Effect
  | [] => []
  | e :: t => if effectReceiver e = some u then e :: toPlayer u t else toPlayer u t

/-- toPlayer distributes over append. -/
theorem toPlayer_append (u : Nat) (a b : List Effect) :
    toPlayer u (a ++ b) = toPlayer u a ++ toPlayer u b := by
  induction a with
  | nil => simp [toPlayer]
  | cons e t ih =>
    by_cases h : effectReceiver e = some u <;> simp [toPlayer, h, ih]

/-- toPlayer keeps a replay sequence addressed to the player entirely. -/
theorem toPlayer_replay (u room : Nat) (w : String) (l : List String) :
    toPlayer u (l.map fun g =>
        Effect.msgCommand room (some u) (BotCommand.wordleGuess g w))
      = l.map fun g => Effect.msgCommand room (some u) (BotCommand.wordleGuess g w) := by
  induction l with
  | nil => simp [toPlayer]
  | cons g t ih => simp [toPlayer, effectReceiver, ih]

/-- C8: a join event for a player already on the roster cancels that player's
pending departure timer (the only state change), notifies the partner of the
rejoin, and sends the rejoining player, in order: the initialization signal,
the current round image, and every guess-history entry in original order. -/
theorem c8_rejoin_resync (s : BotState) (room : Nat) (pA pB : Player)
    (w img : String) (rest : List RoundItem) (hist : List String)
    (rt : RoomTimers) (t : Nat)
    (hwr : room ≠ s.waiting_room)
    (himg : alookup s.images_per_room room = some ((w, img) :: rest))
    (hpl : alookup s.players_per_room room = some [pA, pB])
    (hne : pA.id ≠ pB.id)
    (hhist : alookup s.guesses_history room = some hist)
    (htm : alookup s.timers_per_room room = some rt)
    (hlt : alookup rt.left_room pA.id = some t) :
    (statusEvent s room pA.id StatusType.join).err = none
    ∧ (statusEvent s room pA.id StatusType.join).state
        = { s with liveTimers := s.liveTimers.erase t }
    ∧ Effect.textMsg room (some pB.id) (Msg.joinedGame pA.name)
        ∈ (statusEvent s room pA.id StatusType.join).effects
    ∧ toPlayer pA.id (statusEvent s room pA.id StatusType.join).effects
        = Effect.msgCommand room (some pA.id) BotCommand.wordleInit
          :: Effect.patchImage room pA.id img
          :: hist.map (fun g =>
               Effect.msgCommand room (some pA.id) (BotCommand.wordleGuess g w)) := by
  by_cases hord : pA.id < pB.id
  · refine ⟨?_, ?_, ?_, ?_⟩ <;>
      simp [statusEvent, statusJoin, showItem, hwr, hpl, himg, hhist, htm, hlt,
        Ne.symm hne, hord, Outcome.andThen, ok, sortPlayers, insertById,
        toPlayer, effectReceiver, toPlayer_append, toPlayer_replay]
  · refine ⟨?_, ?_, ?_, ?_⟩ <;>
      simp [statusEvent, statusJoin, showItem, hwr, hpl, himg, hhist, htm, hlt,
        Ne.symm hne, hord, Outcome.andThen, ok, sortPlayers, insertById,
        toPlayer, effectReceiver, toPlayer_append, toPlayer_replay]

/-- C3 witness: the amended round-advance theorem evaluated on a concrete
two-item session. -/
theorem c3_round_advance_amended_witness :
    (nextRound c3Start 1).state =
      { c3Start with
          images_per_room := ainsert c3Start.images_per_room 1 [("world", "i2")],
          guesses_history := ainsert c3Start.guesses_history 1 [],
          guesses_per_room := ainsert c3Start.guesses_per_room 1 [],
          players_per_room :=
            ainsert c3Start.players_per_room 1 [resetPlayer pAl, resetPlayer pBo],
          timers_per_room :=
            ainsert c3Start.timers_per_room 1
              { left_room := [], round_timer := some c3Start.nextTid },
          liveTimers := c3Start.nextTid :: c3Start.liveTimers,
          nextTid := c3Start.nextTid + 1 }
    ∧ (nextRound c3Start 1).err = none :=
  (c3_round_advance_amended c3Start 1 pAl pBo ("hello", "i1") [("world", "i2")]
      ⟨[], some 0⟩ 0 (by decide) (by decide) (by decide) (by decide)).1 (by decide)

/-- C4 witness: the resolution theorem evaluated on a concrete winning guess
with allowance 6, awarding 100 points. -/
theorem c4_equal_submission_resolution_witness :
    (commandGuess c1Start 1 10 "hello" (some 6)).err = none
    ∧ alookup (commandGuess c1Start 1 10 "hello" (some 6)).state.points_per_room 1
        = some (0 + if ("hello" : String) = "hello" then 100 else 0)
    ∧ alookup (commandGuess c1Start 1 10 "hello" (some 6)).state.images_per_room 1
        = some [("world", "i2"), ("crane", "i3")]
    ∧ alookup (commandGuess c1Start 1 10 "hello" (some 6)).state.guesses_per_room 1
        = some []
    ∧ alookup (commandGuess c1Start 1 10 "hello" (some 6)).state.guesses_history 1
        = some [] :=
  (c4_equal_submission_resolution c1Start 1 pAl pBo "hello" "i1" "hello"
      [("world", "i2"), ("crane", "i3")] 6 [] 0 100 ⟨[], some 0⟩
      (by decide) (by decide) (by decide) (by decide) (by decide) (by decide)
      (by decide) (by decide) (by decide) (by decide)).1 (Or.inl rfl) (by decide)

/-- C5 witness: the amended theorem evaluated for stranger id 99 against the
concrete session, on both sides of the task gate: with no platform task the
event is ignored, and with matching task 7 it is handled as roster player
pBo. -/
theorem c5_stranger_status_amended_witness :
    statusHandler (fun _ => none) c5Start 1 99 StatusType.leave = ok c5Start []
    ∧ statusHandler c5UserTask c5Start 1 99 StatusType.leave
        = statusEvent c5Start 1 20 StatusType.leave :=
  ⟨(c5_stranger_status_amended (fun _ => none) c5Start 1 99 pAl pBo
      StatusType.leave (by decide) (by decide) (by decide)).1 rfl,
   (c5_stranger_status_amended c5UserTask c5Start 1 99 pAl pBo
      StatusType.leave (by decide) (by decide) (by decide)).2.2 7 rfl rfl⟩

/-- Session used for the C6 witness. -/
def c6Start : BotState :=
  baseState [("hello", "i1")] [(20, "world")] [] 0 ⟨[], some 0⟩ [0] 1

/-- C6 witness: the mismatch theorem evaluated on a concrete disagreeing
pair of guesses. -/
theorem c6_mismatch_clears_submissions_witness :
    commandGuess c6Start 1 10 "hello" (some 6) =
      ⟨{ c6Start with guesses_per_room := ainsert c6Start.guesses_per_room 1 [] },
       [Effect.textMsg 1 none Msg.differentWords], none⟩ :=
  c6_mismatch_clears_submissions c6Start 1 pAl pBo "hello" "i1" "hello" "world" [] 6
    (by decide) (by decide) (by decide) (by decide) (by decide) (by decide) (by decide)

/-- C7 witness: the amended dispatch theorem evaluated on concrete plain,
guessless and guess-carrying commands. -/
theorem c7_command_dispatch_amended_witness :
    commandEvent c7Start 1 10 (CommandPayload.plain "hi")
      = ok c7Start [Effect.textMsg 1 (some 10) Msg.notUnderstood]
    ∧ commandEvent c7Start 1 10 (CommandPayload.structured none none) = ok c7Start []
    ∧ commandEvent c7Start 1 10 (CommandPayload.structured (some "hello") none)
      = commandGuess c7Start 1 10 "hello" none :=
  ⟨(c7_command_dispatch_amended c7Start 1 10 [("hello", "i1")] "hi" "hello" none
      (by decide) (by decide)).1,
   (c7_command_dispatch_amended c7Start 1 10 [("hello", "i1")] "hi" "hello" none
      (by decide) (by decide)).2.1,
   (c7_command_dispatch_amended c7Start 1 10 [("hello", "i1")] "hi" "hello" none
      (by decide) (by decide)).2.2 (by decide)⟩

/-- Session used for the C8 witness: pAl has the pending departure timer 3. -/
def c8Start : BotState :=
  baseState [("hello", "i1")] [] ["world"] 0 ⟨[(10, 3)], some 0⟩ [0, 3] 4

/-- C8 witness: the rejoin theorem evaluated on a concrete session where the
rejoining player pAl has pending departure timer 3. -/
theorem c8_rejoin_resync_witness :
    (statusEvent c8Start 1 10 StatusType.join).err = none
    ∧ (statusEvent c8Start 1 10 StatusType.join).state
        = { c8Start with liveTimers := c8Start.liveTimers.erase 3 }
    ∧ Effect.textMsg 1 (some 20) (Msg.joinedGame "A")
        ∈ (statusEvent c8Start 1 10 StatusType.join).effects
    ∧ toPlayer 10 (statusEvent c8Start 1 10 StatusType.join).effects
        = Effect.msgCommand 1 (some 10) BotCommand.wordleInit
          :: Effect.patchImage 1 10 "i1"
          :: (["world"].map fun g =>
               Effect.msgCommand 1 (some 10) (BotCommand.wordleGuess g "hello")) :=
  c8_rejoin_resync c8Start 1 pAl pBo "hello" "i1" [] ["world"] ⟨[(10, 3)], some 0⟩ 3
    (by decide) (by decide) (by decide) (by decide) (by decide) (by decide) (by decide)

/-- C9 witness: the creation-failure theorem evaluated on a concrete
room-created event. -/
theorem c9_new_task_room_attribute_error_witness :
    newTaskRoom noSessionState 2 (some 7) [(10, "A")] =
      fail { noSessionState with
              received_waiting_token :=
                noSessionState.received_waiting_token.filter
                  (fun u => [(10, "A")].all (fun p => p.1 ≠ u)) }
        [] PyErr.attributeErr :=
  c9_new_task_room_attribute_error noSessionState 2 7 [(10, "A")] (by decide)

/-- C10 witness: the stranger-guess theorem evaluated for stranger id 99,
recording the guess under roster player pBo. -/
theorem c10_stranger_guess_second_player_witness :
    commandGuess c5Start 1 99 "hello" (some 6) =
      ⟨{ c5Start with
          guesses_per_room := ainsert c5Start.guesses_per_room 1 [(20, "hello")] },
       [Effect.textMsg 1 (some 20) Msg.waitPartner,
        Effect.textMsg 1 (some 10) Msg.partnerThinks], none⟩ :=
  (c10_stranger_guess_second_player c5Start 1 99 pAl pBo "hello" "i1" "hello" [] 6 []
      (by decide) (by decide) (by decide) (by decide) (by decide) (by decide)).1 rfl
